import Mathlib

/-!
Verification of the NeuroPet behavior core (ESP32 firmware).

The C sources are embedded shallowly: C `float` arithmetic is modelled by
exact rational arithmetic over ℚ, machine-integer millisecond timestamps by ℕ
(all subtractions in the embedded code happen on monotone clocks, so ℕ
truncated subtraction agrees with the `uint32_t` arithmetic of the source),
and global mutable module state by explicit state records threaded through
the functions.  Transcendental library functions (`expf`, `tanhf`) have no
exact rational counterpart; where they occur they are parameters of the
model, constrained only where a theorem needs it.
-/

/-! ## Needs Simulator (core_state.cpp) -/

/-- Pet needs state, from core_state.h: five floats in [0,1]. -/
structure PetState where
  hunger : ℚ
  energy : ℚ
  affection_need : ℚ
  trust : ℚ
  stress : ℚ
  deriving DecidableEq, Repr

/-- Interaction statistics, from core_state.h. -/
structure InteractionStats where
  last_interaction_ms : ℕ
  feed_count_1m : ℕ
  feed_count_5m : ℕ
  pet_count_1m : ℕ
  pet_count_5m : ℕ
  ignore_start_ms : ℕ
  spam_score : ℚ
  deriving DecidableEq, Repr

/-- State update configuration, from core_state.h. -/
structure StateConfig where
  hunger_rate : ℚ
  energy_decay_rate : ℚ
  energy_regen_rate : ℚ
  affection_decay_rate : ℚ
  stress_decay_rate : ℚ
  trust_decay_rate : ℚ
  feed_hunger_reduction : ℚ
  feed_stress_reduction : ℚ
  pet_affection_reduction : ℚ
  pet_stress_reduction : ℚ
  spam_penalty : ℚ
  deriving DecidableEq, Repr

/-- Action identifiers, from the PetAction enum in core_state.h
(SLEEP=0, IDLE=1, PLAY=2, ASK_FOOD=3, ASK_PET=4, HAPPY=5, ANNOYED=6, SAD=7). -/
abbrev PetAction := Fin 8

def ACTION_SLEEP : PetAction := 0
def ACTION_IDLE : PetAction := 1
def ACTION_PLAY : PetAction := 2
def ACTION_ASK_FOOD : PetAction := 3
def ACTION_ASK_PET : PetAction := 4
def ACTION_HAPPY : PetAction := 5
def ACTION_ANNOYED : PetAction := 6
def ACTION_SAD : PetAction := 7

/-- clamp01 from core_state.cpp. -/
def clamp01 (value : ℚ) : ℚ :=
  if value < 0 then 0
  else if value > 1 then 1
  else value

/-- core_state_init from core_state.cpp. -/
def core_state_init : PetState :=
  { hunger := 3/10, energy := 7/10, affection_need := 2/5, trust := 1/2, stress := 1/5 }

/-- core_state_config_init from core_state.cpp (the default configuration). -/
def core_state_config_init : StateConfig :=
  { hunger_rate := 1/1000
    energy_decay_rate := 8/10000
    energy_regen_rate := 2/1000
    affection_decay_rate := 5/10000
    stress_decay_rate := 3/10000
    trust_decay_rate := 1/100000
    feed_hunger_reduction := 2/5
    feed_stress_reduction := 1/20
    pet_affection_reduction := 7/20
    pet_stress_reduction := 1/10
    spam_penalty := 7/10 }

/-- core_state_stats_init from core_state.cpp. -/
def core_state_stats_init : InteractionStats :=
  { last_interaction_ms := 0, feed_count_1m := 0, feed_count_5m := 0
    pet_count_1m := 0, pet_count_5m := 0, ignore_start_ms := 0, spam_score := 0 }

/-- core_state_update from core_state.cpp (the simulation tick).  The stress
terms read the hunger / energy / affection fields after their in-place
updates, exactly as the C code does. -/
def core_state_update (state : PetState) (config : StateConfig)
    (delta_ms : ℕ) (current_action : PetAction) : PetState :=
  let dt : ℚ := (delta_ms : ℚ) / 1000
  let hunger := clamp01 (state.hunger + config.hunger_rate * dt)
  let energy :=
    if current_action = ACTION_SLEEP then
      clamp01 (state.energy + config.energy_regen_rate * dt)
    else
      clamp01 (state.energy - config.energy_decay_rate * dt)
  let affection_need := clamp01 (state.affection_need + config.affection_decay_rate * dt)
  let stress_change :=
    (-config.stress_decay_rate * dt)
    + (if hunger > 7/10 then (1/2000) * dt * (hunger - 7/10) / (3/10) else 0)
    + (if energy < 1/5 then (3/10000) * dt * (1/5 - energy) / (1/5) else 0)
    + (if affection_need > 4/5 then (1/5000) * dt else 0)
  let stress := clamp01 (state.stress + stress_change)
  let trust := clamp01 (state.trust - config.trust_decay_rate * dt)
  { hunger := hunger, energy := energy, affection_need := affection_need
    trust := trust, stress := stress }

/-- core_state_feed from core_state.cpp. -/
def core_state_feed (state : PetState) (config : StateConfig)
    (stats : InteractionStats) : PetState × InteractionStats :=
  let effectiveness := 1 - stats.spam_score * config.spam_penalty
  let hunger_before := state.hunger
  let hunger := clamp01 (state.hunger - config.feed_hunger_reduction * effectiveness)
  let stress := clamp01 (state.stress - config.feed_stress_reduction * effectiveness)
  let was_hungry := hunger_before > 1/2
  let trust :=
    if was_hungry ∧ effectiveness > 1/2 then clamp01 (state.trust + 1/50)
    else state.trust
  let stress2 := if hunger_before < 1/5 then clamp01 (stress + 3/100) else stress
  ({ state with hunger := hunger, stress := stress2, trust := trust },
   { stats with spam_score := clamp01 (stats.spam_score + 3/20) })

/-- core_state_pet from core_state.cpp. -/
def core_state_pet (state : PetState) (config : StateConfig)
    (stats : InteractionStats) : PetState × InteractionStats :=
  let effectiveness := 1 - stats.spam_score * config.spam_penalty
  let affection_before := state.affection_need
  let affection_need :=
    clamp01 (state.affection_need - config.pet_affection_reduction * effectiveness)
  let stress := clamp01 (state.stress - config.pet_stress_reduction * effectiveness)
  let needed_affection := affection_before > 1/2
  let trust :=
    if needed_affection ∧ effectiveness > 1/2 then clamp01 (state.trust + 3/200)
    else state.trust
  let stress2 := if affection_before < 3/20 then clamp01 (stress + 1/50) else stress
  ({ state with affection_need := affection_need, stress := stress2, trust := trust },
   { stats with spam_score := clamp01 (stats.spam_score + 3/20) })

/-- core_state_update_stats from core_state.cpp: linear spam-score decay at
0.0005 per millisecond, applied only for gaps strictly between 0 and 60000 ms
since the last interaction. -/
def core_state_update_stats (stats : InteractionStats) (current_ms : ℕ) : InteractionStats :=
  let dt : ℕ := current_ms - stats.last_interaction_ms
  if 0 < dt ∧ dt < 60000 then
    { stats with spam_score := clamp01 (stats.spam_score - (1/2000) * (dt : ℚ)) }
  else stats

/-- calculate_trust_change from core_state.cpp. -/
def calculate_trust_change (state : PetState) (was_requested was_timely : Bool) : ℚ :=
  let change : ℚ :=
    if was_requested ∧ was_timely then 3/100
    else if ¬was_requested ∧ was_timely then 1/100
    else if was_requested ∧ ¬was_timely then -1/100
    else 0
  let change := if state.trust > 4/5 ∧ change > 0 then change * (1/2) else change
  let change := if state.trust < 1/5 ∧ change < 0 then change * (1/2) else change
  change

/-! ### Operation sequences over the needs state (for the [0,1] invariant) -/

/-- One operation of the needs simulator, as enumerated by the invariant
claim: a tick with an arbitrary delta and current action, a feed, or a pet. -/
inductive PetOp where
  | tick (delta_ms : ℕ) (current_action : PetAction)
  | feed
  | pet
  deriving DecidableEq, Repr

/-- Run one operation against the pet state and interaction statistics,
with the default configuration. -/
def runPetOp (s : PetState × InteractionStats) (op : PetOp) : PetState × InteractionStats :=
  match op with
  | .tick d a => (core_state_update s.1 core_state_config_init d a, s.2)
  | .feed => core_state_feed s.1 core_state_config_init s.2
  | .pet => core_state_pet s.1 core_state_config_init s.2

/-- Run a sequence of operations. -/
def runPetOps (s : PetState × InteractionStats) (ops : List PetOp) : PetState × InteractionStats :=
  ops.foldl runPetOp s

/-- All five fields of the needs state lie in [0,1]. -/
def PetState.InRange (s : PetState) : Prop :=
  0 ≤ s.hunger ∧ s.hunger ≤ 1 ∧
  0 ≤ s.energy ∧ s.energy ≤ 1 ∧
  0 ≤ s.affection_need ∧ s.affection_need ≤ 1 ∧
  0 ≤ s.trust ∧ s.trust ≤ 1 ∧
  0 ≤ s.stress ∧ s.stress ≤ 1

lemma clamp01_nonneg (x : ℚ) : 0 ≤ clamp01 x := by
  unfold clamp01; split_ifs <;> linarith

lemma clamp01_le_one (x : ℚ) : clamp01 x ≤ 1 := by
  unfold clamp01; split_ifs <;> linarith

lemma core_state_update_inRange (s : PetState) (c : StateConfig) (d : ℕ) (a : PetAction) :
    (core_state_update s c d a).InRange := by
  unfold core_state_update PetState.InRange
  refine ⟨clamp01_nonneg _, clamp01_le_one _, ?_, ?_, clamp01_nonneg _, clamp01_le_one _,
    clamp01_nonneg _, clamp01_le_one _, clamp01_nonneg _, clamp01_le_one _⟩ <;>
    split_ifs <;> first
      | exact clamp01_nonneg _
      | exact clamp01_le_one _

set_option maxHeartbeats 1000000 in
lemma core_state_feed_inRange (s : PetState) (c : StateConfig) (st : InteractionStats)
    (h : s.InRange) : (core_state_feed s c st).1.InRange := by
  obtain ⟨h1, h2, h3, h4, h5, h6, h7, h8, h9, h10⟩ := h
  simp [core_state_feed, PetState.InRange]
  refine ⟨clamp01_nonneg _, clamp01_le_one _, h3, h4, h5, h6, ?_, ?_, ?_, ?_⟩ <;>
    split_ifs <;> first
      | exact clamp01_nonneg _
      | exact clamp01_le_one _
      | assumption

set_option maxHeartbeats 1000000 in
lemma core_state_pet_inRange (s : PetState) (c : StateConfig) (st : InteractionStats)
    (h : s.InRange) : (core_state_pet s c st).1.InRange := by
  obtain ⟨h1, h2, h3, h4, h5, h6, h7, h8, h9, h10⟩ := h
  simp [core_state_pet, PetState.InRange]
  refine ⟨h1, h2, h3, h4, clamp01_nonneg _, clamp01_le_one _, ?_, ?_, ?_, ?_⟩ <;>
    split_ifs <;> first
      | exact clamp01_nonneg _
      | exact clamp01_le_one _
      | assumption

lemma runPetOp_inRange (s : PetState × InteractionStats) (op : PetOp)
    (h : s.1.InRange) : (runPetOp s op).1.InRange := by
  cases op with
  | tick d a => exact core_state_update_inRange _ _ _ _
  | feed => exact core_state_feed_inRange _ _ _ h
  | pet => exact core_state_pet_inRange _ _ _ h

/-- Claim C1: starting from a needs state whose five fields lie in [0,1],
with the default configuration, any sequence of tick / feed / pet operations
(any non-negative millisecond delta, any current action) leaves every field
of the needs state in [0,1] after every call. -/
theorem C1_needs_state_invariant (ops : List PetOp) (s : PetState) (stats : InteractionStats)
    (h : s.InRange) : (runPetOps (s, stats) ops).1.InRange := by
  induction ops generalizing s stats with
  | nil => exact h
  | cons op rest ih =>
      have h1 := runPetOp_inRange (s, stats) op h
      simpa [runPetOps] using ih (runPetOp (s, stats) op).1 (runPetOp (s, stats) op).2
        (by simpa using h1)

/-- Witness for C1 at a concrete input: the initial pet state is in range
and stays in range after a 2-second tick, a feed and a pet. -/
theorem C1_needs_state_invariant_witness :
    core_state_init.InRange ∧
    (runPetOps (core_state_init, core_state_stats_init)
      [PetOp.tick 2000 ACTION_IDLE, PetOp.feed, PetOp.pet]).1.InRange :=
  ⟨by norm_num [PetState.InRange, core_state_init],
   C1_needs_state_invariant _ _ _ (by norm_num [PetState.InRange, core_state_init])⟩

/-! ## Claims about the interaction statistics (C7, C8) -/

lemma clamp01_eq_max (x : ℚ) (h : x ≤ 1) : clamp01 x = max 0 x := by
  unfold clamp01
  split_ifs with h1 h2
  · exact (max_eq_left (le_of_lt h1)).symm
  · linarith
  · exact (max_eq_right (not_lt.mp h1)).symm

/-- Claim C7: on every call to core_state_update_stats, the spam score
decreases linearly at 0.0005 (= 1/2000) per elapsed millisecond since the
last interaction, clamped at zero, and this decay is applied only when the
elapsed gap is under 60 seconds; for gaps of 60000 ms or more the statistics
are returned unchanged. -/
theorem C7_spam_score_decay (stats : InteractionStats) (current_ms : ℕ)
    (h0 : 0 ≤ stats.spam_score) (h1 : stats.spam_score ≤ 1) :
    (current_ms - stats.last_interaction_ms < 60000 →
      core_state_update_stats stats current_ms =
        { stats with spam_score := max 0 (stats.spam_score -
                          (1/2000) * ((current_ms - stats.last_interaction_ms : ℕ) : ℚ)) }) ∧
    (60000 ≤ current_ms - stats.last_interaction_ms →
      core_state_update_stats stats current_ms = stats) := by
  constructor
  · intro hlt
    unfold core_state_update_stats
    rcases Nat.eq_zero_or_pos (current_ms - stats.last_interaction_ms) with hz | hp
    · rw [if_neg (by omega)]
      rw [hz]
      simp only [Nat.cast_zero, mul_zero, sub_zero]
      rw [max_eq_right h0]
    · rw [if_pos ⟨hp, hlt⟩]
      rw [clamp01_eq_max]
      have : (0:ℚ) ≤ (1/2000) * ((current_ms - stats.last_interaction_ms : ℕ) : ℚ) := by
        positivity
      linarith
  · intro hge
    unfold core_state_update_stats
    rw [if_neg (by omega)]

/-- Witness for C7 at a concrete input: last interaction at 1000 ms, call at
2000 ms (gap 1000 ms, decay applies) and the same statistics queried at
70000 ms (gap ≥ 60000 ms, unchanged). -/
theorem C7_spam_score_decay_witness :
    (core_state_update_stats { core_state_stats_init with
        last_interaction_ms := 1000
        spam_score := 9/10 } 2000 =
      { core_state_stats_init with
          last_interaction_ms := 1000
          spam_score := max 0 (9/10 - (1/2000) * ((2000 - 1000 : ℕ) : ℚ)) }) ∧
    (core_state_update_stats { core_state_stats_init with
        last_interaction_ms := 1000
        spam_score := 9/10 } 70000 =
      { core_state_stats_init with
          last_interaction_ms := 1000
          spam_score := 9/10 }) :=
  ⟨(C7_spam_score_decay _ 2000 (by norm_num) (by norm_num)).1 (by norm_num),
   (C7_spam_score_decay _ 70000 (by norm_num) (by norm_num)).2 (by norm_num)⟩

lemma feed_spam_eq (s : PetState) (c : StateConfig) (stats : InteractionStats) :
    (core_state_feed s c stats).2.spam_score = clamp01 (stats.spam_score + 3/20) := by
  simp [core_state_feed]

lemma feed_spam_le (s : PetState) (c : StateConfig) (stats : InteractionStats)
    (h : 0 ≤ stats.spam_score) :
    (core_state_feed s c stats).2.spam_score ≤ stats.spam_score + 3/20 := by
  rw [feed_spam_eq]
  unfold clamp01
  split_ifs <;> linarith

lemma feed_spam_nonneg (s : PetState) (c : StateConfig) (stats : InteractionStats) :
    0 ≤ (core_state_feed s c stats).2.spam_score := by
  rw [feed_spam_eq]; exact clamp01_nonneg _

lemma update_stats_spam_le (stats : InteractionStats) (t : ℕ)
    (h0 : 0 ≤ stats.spam_score) :
    (core_state_update_stats stats t).spam_score ≤ stats.spam_score := by
  simp only [core_state_update_stats]
  split_ifs with h
  · have hd : (0:ℚ) ≤ (1/2000) * ((t - stats.last_interaction_ms : ℕ) : ℚ) := by positivity
    simp only
    unfold clamp01
    split_ifs <;> linarith
  · exact le_refl _

lemma update_stats_spam_nonneg (stats : InteractionStats) (t : ℕ)
    (h0 : 0 ≤ stats.spam_score) :
    0 ≤ (core_state_update_stats stats t).spam_score := by
  simp only [core_state_update_stats]
  split_ifs
  · exact clamp01_nonneg _
  · exact h0

/-- Counterexample to claim C8: starting from spamScore = 0, three consecutive
core_state_feed calls (zero elapsed time between them, the most favorable
reading of "within one second" since any interleaved decay only lowers the
score) leave spamScore at 0.45, not at 1.0: each feed adds only 0.15. -/
theorem C8_counterexample :
    (runPetOps (core_state_init, core_state_stats_init)
      [PetOp.feed, PetOp.feed, PetOp.feed]).2.spam_score = 9/20 ∧ (9/20 : ℚ) ≠ 1 := by
  constructor
  · simp [runPetOps, runPetOp, core_state_feed, core_state_stats_init, clamp01]
    norm_num
  · norm_num

/-- Claim C8 (amended): starting from spamScore = 0, three core_state_feed
calls raise spamScore to exactly 0.45 (each feed adds 0.15, clamped to [0,1])
when no decay runs in between, and to at most 0.45 with core_state_update_stats
interleaved at arbitrary times; the effective hunger reduction of a feed
strictly decreases as the spam score rises, but approaches the positive floor
0.12 = 0.4 x (1 - 0.7) at spamScore = 1, not zero. -/
theorem C8_spam_scenario (s : PetState) (stats : InteractionStats)
    (hs : stats.spam_score = 0) :
    ((runPetOps (s, stats) [PetOp.feed, PetOp.feed, PetOp.feed]).2.spam_score = 9/20) ∧
    (∀ t1 t2 : ℕ,
      (core_state_feed
        (core_state_feed
          (core_state_feed s core_state_config_init stats).1 core_state_config_init
          (core_state_update_stats
            (core_state_feed s core_state_config_init stats).2 t1)).1
        core_state_config_init
        (core_state_update_stats
          (core_state_feed
            (core_state_feed s core_state_config_init stats).1 core_state_config_init
            (core_state_update_stats
              (core_state_feed s core_state_config_init stats).2 t1)).2 t2)).2.spam_score
        ≤ 9/20) ∧
    (∀ s1 s2 : ℚ, 0 ≤ s1 → s1 < s2 → s2 ≤ 1 →
      (core_state_feed { s with hunger := 1 } core_state_config_init
        { stats with spam_score := s1 }).1.hunger <
      (core_state_feed { s with hunger := 1 } core_state_config_init
        { stats with spam_score := s2 }).1.hunger) ∧
    (∀ sp : ℚ, 0 ≤ sp → sp ≤ 1 →
      3/25 ≤ 1 - (core_state_feed { s with hunger := 1 } core_state_config_init
        { stats with spam_score := sp }).1.hunger) := by
  refine ⟨?_, ?_, ?_, ?_⟩
  · simp [runPetOps, runPetOp, core_state_feed, hs, clamp01]
    norm_num
  · intro t1 t2
    have n1 := feed_spam_nonneg s core_state_config_init stats
    have hs0 : (0:ℚ) ≤ stats.spam_score := by rw [hs]
    have b1 := feed_spam_le s core_state_config_init stats hs0
    set u1 := core_state_update_stats (core_state_feed s core_state_config_init stats).2 t1
      with hu1
    have n2 : 0 ≤ u1.spam_score := update_stats_spam_nonneg _ _ n1
    have b2 : u1.spam_score ≤ (core_state_feed s core_state_config_init stats).2.spam_score :=
      update_stats_spam_le _ _ n1
    have n3 := feed_spam_nonneg (core_state_feed s core_state_config_init stats).1
      core_state_config_init u1
    have b3 := feed_spam_le (core_state_feed s core_state_config_init stats).1
      core_state_config_init u1 n2
    set f2 := core_state_feed (core_state_feed s core_state_config_init stats).1
      core_state_config_init u1 with hf2
    have n4 : 0 ≤ (core_state_update_stats f2.2 t2).spam_score :=
      update_stats_spam_nonneg _ _ n3
    have b4 : (core_state_update_stats f2.2 t2).spam_score ≤ f2.2.spam_score :=
      update_stats_spam_le _ _ n3
    have b5 := feed_spam_le f2.1 core_state_config_init (core_state_update_stats f2.2 t2) n4
    linarith
  · intro s1 s2 hs1 hlt hs2
    simp only [core_state_feed, core_state_config_init]
    unfold clamp01
    split_ifs <;> simp_all <;> linarith
  · intro sp h0 h1
    simp only [core_state_feed, core_state_config_init]
    unfold clamp01
    split_ifs <;> simp_all <;> linarith

/-- Witness for C8 at the concrete boot state: three feeds from the freshly
initialized statistics (spam score 0) give spam score 0.45. -/
theorem C8_spam_scenario_witness :
    (runPetOps (core_state_init, core_state_stats_init)
      [PetOp.feed, PetOp.feed, PetOp.feed]).2.spam_score = 9/20 :=
  (C8_spam_scenario core_state_init core_state_stats_init rfl).1

/-! ## Feature Builder and Decision Engine (logger.h, main.cpp) -/

/-- Feature vector, from the Features struct in logger.h: twelve floats. -/
structure Features where
  hunger : ℚ
  energy : ℚ
  affection_need : ℚ
  trust : ℚ
  stress : ℚ
  dt_seconds_norm : ℚ
  feed_count_5m_norm : ℚ
  pet_count_5m_norm : ℚ
  ignore_time_norm : ℚ
  time_of_day_sin : ℚ
  time_of_day_cos : ℚ
  spam_score_norm : ℚ
  deriving DecidableEq, Repr

/-- Brain output, from core_state.h: an action plus valence and arousal. -/
structure BrainOutput where
  action_id : PetAction
  valence : ℚ
  arousal : ℚ
  deriving DecidableEq, Repr

/-- brain_fallback from main.cpp: the rule-based priority ladder.  The C
function first writes the idle default into the output and then overwrites
it in an if / else-if chain in which every branch assigns all three fields,
so the chain is equivalently a nested conditional; afterwards valence is
adjusted by trust and both emotions are clamped. -/
def brain_fallback (features : Features) : BrainOutput :=
  let hunger := features.hunger
  let energy := features.energy
  let affection := features.affection_need
  let stress := features.stress
  let o : BrainOutput :=
    if energy < 1/5 then
      { action_id := ACTION_SLEEP, valence := 0, arousal := 1/10 }
    else if hunger > 7/10 then
      { action_id := ACTION_ASK_FOOD, valence := -3/10, arousal := 1/2 + hunger * (3/10) }
    else if affection > 3/5 then
      { action_id := ACTION_ASK_PET, valence := -1/10, arousal := 2/5 }
    else if stress > 3/5 then
      { action_id := ACTION_ANNOYED, valence := -1/2, arousal := 3/5 }
    else if hunger < 3/10 ∧ energy > 1/2 ∧ affection < 3/10 then
      (if features.dt_seconds_norm > 1/2 then
        { action_id := ACTION_SAD, valence := -1/5, arousal := 1/5 }
      else
        { action_id := ACTION_HAPPY, valence := 7/10, arousal := 1/2 })
    else if energy > 3/5 ∧ stress < 3/10 then
      { action_id := ACTION_PLAY, valence := 2/5, arousal := 3/5 }
    else
      { action_id := ACTION_IDLE, valence := 0, arousal := 3/10 }
  let valence := o.valence + (features.trust - 1/2) * (3/10)
  let valence := if valence < -1 then -1 else valence
  let valence := if valence > 1 then 1 else valence
  let arousal := if o.arousal < 0 then (0:ℚ) else o.arousal
  let arousal := if arousal > 1 then 1 else arousal
  { action_id := o.action_id, valence := valence, arousal := arousal }

set_option maxHeartbeats 2000000 in
/-- Claim C2: the fallback decision engine selects the action by the exact
priority order energy < 0.2 (sleep), hunger > 0.7 (ask-food),
affection-need > 0.6 (ask-pet), stress > 0.6 (annoyed), the contentment
branch (sad when normalized time since interaction exceeds 0.5, happy
otherwise), the play branch, and idle; in particular energy = 0.1 together
with hunger = 0.9 selects sleep because the energy branch precedes the
hunger branch. -/
theorem C2_fallback_priority_ladder (f : Features) :
    (f.energy < 1/5 → (brain_fallback f).action_id = ACTION_SLEEP) ∧
    (1/5 ≤ f.energy → 7/10 < f.hunger →
      (brain_fallback f).action_id = ACTION_ASK_FOOD) ∧
    (1/5 ≤ f.energy → f.hunger ≤ 7/10 → 3/5 < f.affection_need →
      (brain_fallback f).action_id = ACTION_ASK_PET) ∧
    (1/5 ≤ f.energy → f.hunger ≤ 7/10 → f.affection_need ≤ 3/5 → 3/5 < f.stress →
      (brain_fallback f).action_id = ACTION_ANNOYED) ∧
    (1/5 ≤ f.energy → f.hunger ≤ 7/10 → f.affection_need ≤ 3/5 → f.stress ≤ 3/5 →
      f.hunger < 3/10 → 1/2 < f.energy → f.affection_need < 3/10 →
      1/2 < f.dt_seconds_norm → (brain_fallback f).action_id = ACTION_SAD) ∧
    (1/5 ≤ f.energy → f.hunger ≤ 7/10 → f.affection_need ≤ 3/5 → f.stress ≤ 3/5 →
      f.hunger < 3/10 → 1/2 < f.energy → f.affection_need < 3/10 →
      f.dt_seconds_norm ≤ 1/2 → (brain_fallback f).action_id = ACTION_HAPPY) ∧
    (1/5 ≤ f.energy → f.hunger ≤ 7/10 → f.affection_need ≤ 3/5 → f.stress ≤ 3/5 →
      ¬(f.hunger < 3/10 ∧ 1/2 < f.energy ∧ f.affection_need < 3/10) →
      3/5 < f.energy → f.stress < 3/10 →
      (brain_fallback f).action_id = ACTION_PLAY) ∧
    (1/5 ≤ f.energy → f.hunger ≤ 7/10 → f.affection_need ≤ 3/5 → f.stress ≤ 3/5 →
      ¬(f.hunger < 3/10 ∧ 1/2 < f.energy ∧ f.affection_need < 3/10) →
      ¬(3/5 < f.energy ∧ f.stress < 3/10) →
      (brain_fallback f).action_id = ACTION_IDLE) ∧
    (f.energy = 1/10 → f.hunger = 9/10 → (brain_fallback f).action_id = ACTION_SLEEP) := by
  refine ⟨?_, ?_, ?_, ?_, ?_, ?_, ?_, ?_, ?_⟩ <;> intros <;>
    simp only [brain_fallback] <;> split_ifs <;>
    first
      | rfl
      | (exfalso
         simp only [not_and_or, not_lt, not_le] at *
         try casesm* _ ∨ _
         all_goals try casesm* _ ∧ _
         all_goals linarith)

/-- A concrete feature vector with energy 0.1 and hunger 0.9, used as the
test input of the priority-ladder law. -/
def hungryTiredFeatures : Features :=
  { hunger := 9/10
    energy := 1/10
    affection_need := 2/5
    trust := 1/2
    stress := 1/5
    dt_seconds_norm := 0
    feed_count_5m_norm := 0
    pet_count_5m_norm := 0
    ignore_time_norm := 0
    time_of_day_sin := 0
    time_of_day_cos := 1
    spam_score_norm := 0 }

/-- Witness for C2 at a concrete feature vector: energy 0.1 and hunger 0.9
simultaneously select sleep. -/
theorem C2_fallback_priority_ladder_witness :
    (brain_fallback hungryTiredFeatures).action_id = ACTION_SLEEP :=
  (C2_fallback_priority_ladder _).1 (by norm_num [hungryTiredFeatures])

/-! ## Online Learner (online_learn.cpp) -/

/-- Experience record, from online_learn.cpp: a 12-float feature snapshot,
the rewarded action, and the reward magnitude.  The action is stored as
Fin 8 because online_learn_reward discards any action outside 0..7 before
enqueueing. -/
structure Experience where
  features : Fin 12 → ℚ
  action : Fin 8
  reward : ℚ

/-- The Online Learner's module state in online_learn.cpp: the bias vector
g_action_biases, the experience buffer with its count (modelled as a list of
length at most 16), the monotone reward counter g_total_rewards, and the
g_initialized flag. -/
structure LearnState where
  action_biases : Fin 8 → ℚ
  buffer : List Experience
  total_rewards : ℕ
  initialized : Bool

/-- online_learn_reward from online_learn.cpp: reject uninitialized state and
out-of-range actions; append the experience and bump the reward counter only
while the buffer holds fewer than MAX_BUFFER_SIZE = 16 entries. -/
def online_learn_reward (st : LearnState) (reward_action : ℕ)
    (features : Fin 12 → ℚ) : LearnState :=
  if st.initialized = false then st
  else if h : 8 ≤ reward_action then st
  else if st.buffer.length < 16 then
    { st with
        buffer := st.buffer ++ [{ features := features,
                                  action := ⟨reward_action, by omega⟩, reward := 1 }]
        total_rewards := st.total_rewards + 1 }
  else st

/-- online_learn_apply from online_learn.cpp: no-op returning false on an
uninitialized state or an empty buffer; otherwise decay every bias by 0.99,
apply every queued experience (+0.1 x reward to the rewarded action, -0.1 x
reward x 0.1 to every other action), clamp all biases to [-2, 2], and clear
the buffer. -/
def online_learn_apply (st : LearnState) : Bool × LearnState :=
  if st.initialized = false ∨ st.buffer.length = 0 then (false, st)
  else
    let decayed : Fin 8 → ℚ := fun i => st.action_biases i * (99/100)
    let learned : Fin 8 → ℚ :=
      st.buffer.foldl
        (fun b exp => fun i =>
          if i = exp.action then b i + (1/10) * exp.reward
          else b i - (1/10) * exp.reward * (1/10))
        decayed
    let clamped : Fin 8 → ℚ := fun i => max (-2) (min 2 (learned i))
    (true, { st with action_biases := clamped, buffer := [] })

/-- online_learn_get_bias from online_learn.cpp. -/
def online_learn_get_bias (st : LearnState) (action : ℕ) : ℚ :=
  if h : action < 8 then st.action_biases ⟨action, h⟩ else 0

/-- Claim C9: calling online_learn_apply with an empty experience queue
returns false and leaves the whole learner state - in particular every
element of the bias vector, with no 0.99 decay applied - unchanged. -/
theorem C9_apply_empty_queue_noop (st : LearnState) (h : st.buffer = []) :
    online_learn_apply st = (false, st) := by
  simp [online_learn_apply, h]

/-- Witness for C9 at a concrete learner state with nonzero biases. -/
theorem C9_apply_empty_queue_noop_witness :
    online_learn_apply
      { action_biases := fun _ => 1/2, buffer := [], total_rewards := 5,
        initialized := true } =
    (false,
      { action_biases := fun _ => 1/2, buffer := [], total_rewards := 5,
        initialized := true }) :=
  C9_apply_empty_queue_noop _ rfl

/-- Claim C10: when the experience queue already holds its full 16 entries,
online_learn_reward with a valid action returns the learner state completely
unchanged (queue, biases, reward counter); when the queue is not full, the
experience is appended and the reward counter is incremented, so the counter
moves exactly when the experience is enqueued. -/
theorem C10_reward_full_queue_frame (st : LearnState) (a : ℕ) (f : Fin 12 → ℚ)
    (hinit : st.initialized = true) (ha : a < 8) :
    (st.buffer.length = 16 → online_learn_reward st a f = st) ∧
    (st.buffer.length < 16 → online_learn_reward st a f =
      { st with
          buffer := st.buffer ++ [{ features := f, action := ⟨a, ha⟩, reward := 1 }]
          total_rewards := st.total_rewards + 1 }) := by
  have hni : ¬(st.initialized = false) := by simp [hinit]
  have hna : ¬(8 ≤ a) := by omega
  constructor
  · intro hfull
    rw [online_learn_reward, if_neg hni, dif_neg hna, if_neg (by omega)]
  · intro hlt
    rw [online_learn_reward, if_neg hni, dif_neg hna, if_pos hlt]

/-- Witness for C10 at a concrete full learner state: rewarding action 3 on a
16-entry queue changes nothing. -/
theorem C10_reward_full_queue_frame_witness :
    online_learn_reward
      { action_biases := fun _ => 0
        buffer := List.replicate 16 { features := fun _ => 0, action := 0, reward := 1 }
        total_rewards := 16
        initialized := true } 3 (fun _ => 0) =
      { action_biases := fun _ => 0
        buffer := List.replicate 16 { features := fun _ => 0, action := 0, reward := 1 }
        total_rewards := 16
        initialized := true } :=
  (C10_reward_full_queue_frame _ 3 _ rfl (by norm_num)).1 (by simp)

/-! ## Learned Decision Engine (main.cpp, brain section) -/

/-- Network weights, from brain_infer.h: the fixed 12 -> 16 -> 10 topology. -/
structure BrainWeights where
  w1 : Fin 12 → Fin 16 → ℚ
  b1 : Fin 16 → ℚ
  w2 : Fin 16 → Fin 10 → ℚ
  b2 : Fin 10 → ℚ

/-- The brain module state in main.cpp: g_weights, g_custom_model_loaded
(false means the engine is in fallback mode) and g_model_version. -/
structure BrainState where
  weights : BrainWeights
  custom_model_loaded : Bool
  model_version : ℕ

/-- The first four buffer bytes read as a little-endian uint32, as the
memcpy of the version prefix does on the (little-endian) ESP32. -/
def le32 (data : List ℕ) : ℕ :=
  data.getD 0 0 + 256 * data.getD 1 0 + 65536 * data.getD 2 0 + 16777216 * data.getD 3 0

/-- The float at position idx of the serialized stream: four bytes starting
at offset 4 + 4*idx (after the version prefix), decoded by dec.  The IEEE-754
float32 decode has no exact rational form, so dec is a parameter of the
model. -/
def fdataAt (dec : ℕ → ℕ → ℕ → ℕ → ℚ) (data : List ℕ) (idx : ℕ) : ℚ :=
  dec (data.getD (4 + 4*idx) 0) (data.getD (5 + 4*idx) 0)
      (data.getD (6 + 4*idx) 0) (data.getD (7 + 4*idx) 0)

/-- The weight set read from a serialized buffer in the order of
brain_load_weights: w1 row-major (idx = i*16 + j), then b1 (idx = 192 + j),
then w2 row-major (idx = 208 + i*10 + j), then b2 (idx = 368 + j). -/
def decodedWeights (dec : ℕ → ℕ → ℕ → ℕ → ℚ) (data : List ℕ) : BrainWeights :=
  { w1 := fun i j => fdataAt dec data (i.val * 16 + j.val)
    b1 := fun j => fdataAt dec data (192 + j.val)
    w2 := fun i j => fdataAt dec data (208 + i.val * 10 + j.val)
    b2 := fun j => fdataAt dec data (368 + j.val) }

/-- brain_load_weights from main.cpp: reject any buffer shorter than the
serialized size of the fixed topology plus the 4-byte version prefix without
touching the state; otherwise read the version and every weight and switch
to the custom model. -/
def brain_load_weights (dec : ℕ → ℕ → ℕ → ℕ → ℚ) (st : BrainState)
    (data : List ℕ) : Bool × BrainState :=
  let expected_size := (12 * 16 + 16 + 16 * 10 + 10) * 4
  if data.length < expected_size + 4 then (false, st)
  else
    (true, { weights := decodedWeights dec data
             custom_model_loaded := true
             model_version := le32 data })

/-- Claim C4: brain_load_weights accepts a byte buffer only if its length is
at least 1516 = (12*16 + 16 + 16*10 + 10) * 4 + 4 bytes (the exact serialized
size of the 12-16-10 topology plus the 4-byte version prefix); every shorter
buffer - in particular one of 1515 bytes - is rejected with the previous
weights, model version and fallback/learned flag untouched; a successful
load replaces the whole weight set with the decoded buffer contents and
switches the engine to learned mode. -/
theorem C4_model_load_length_check (dec : ℕ → ℕ → ℕ → ℕ → ℚ) (st : BrainState)
    (data : List ℕ) :
    ((12 * 16 + 16 + 16 * 10 + 10) * 4 + 4 = 1516) ∧
    (data.length < 1516 → brain_load_weights dec st data = (false, st)) ∧
    (1516 ≤ data.length →
      brain_load_weights dec st data =
        (true, { weights := decodedWeights dec data
                 custom_model_loaded := true
                 model_version := le32 data })) := by
  refine ⟨by norm_num, ?_, ?_⟩
  · intro hlt
    rw [brain_load_weights]
    rw [if_pos (by omega)]
  · intro hge
    rw [brain_load_weights]
    rw [if_neg (by omega)]

/-- The empty brain state used as a concrete load target. -/
def zeroBrainState : BrainState :=
  { weights := { w1 := fun _ _ => 0, b1 := fun _ => 0, w2 := fun _ _ => 0, b2 := fun _ => 0 }
    custom_model_loaded := false
    model_version := 0 }

/-- Witness for C4 at a concrete input: a 1515-byte buffer (1 byte short of
the exact expected size) is rejected and the state is returned unchanged. -/
theorem C4_model_load_length_check_witness :
    brain_load_weights (fun _ _ _ _ => 0) zeroBrainState (List.replicate 1515 0) =
      (false, zeroBrainState) :=
  (C4_model_load_length_check _ _ _).2.1 (by rw [List.length_replicate]; omega)

/-- relu from main.cpp. -/
def relu (x : ℚ) : ℚ := if x > 0 then x else 0

/-- sigmoid from main.cpp, with the exponential as a model parameter e. -/
def sigmoid (e : ℚ → ℚ) (x : ℚ) : ℚ := 1 / (1 + e (-x))

/-- softmax from main.cpp over the eight action entries, with the
exponential as a model parameter e: scan for the maximum (forward scan
starting from entry 0), exponentiate the shifted entries, normalize by
their sum. -/
def softmax (e : ℚ → ℚ) (v : Fin 8 → ℚ) : Fin 8 → ℚ :=
  let max_val := ((List.finRange 8).drop 1).foldl (fun m i => if v i > m then v i else m) (v 0)
  let ex := fun i => e (v i - max_val)
  let sum := (List.finRange 8).foldl (fun acc i => acc + ex i) 0
  fun i => ex i / sum

/-- The hidden layer of brain_infer_raw from main.cpp: affine transform of
the input plus ReLU, accumulated in source loop order. -/
def brain_hidden (w : BrainWeights) (input : Fin 12 → ℚ) : Fin 16 → ℚ :=
  fun j => relu ((List.finRange 12).foldl (fun acc i => acc + input i * w.w1 i j) (w.b1 j))

/-- The pre-activation output layer of brain_infer_raw from main.cpp:
affine transform of the hidden activations. -/
def brain_out_linear (w : BrainWeights) (input : Fin 12 → ℚ) : Fin 10 → ℚ :=
  fun j =>
    (List.finRange 16).foldl (fun acc i => acc + brain_hidden w input i * w.w2 i j) (w.b2 j)

/-- The ten outputs of brain_infer_raw from main.cpp after the output
activations: tanh on output 8 (valence), sigmoid on output 9 (arousal), and
the stable softmax over outputs 0..7 (the action entries).  th is the model
parameter standing for tanhf. -/
structure RawOutput where
  actions : Fin 8 → ℚ
  valence : ℚ
  arousal : ℚ

/-- brain_infer_raw from main.cpp. -/
def brain_infer_raw (e th : ℚ → ℚ) (w : BrainWeights) (input : Fin 12 → ℚ) : RawOutput :=
  { actions := softmax e (fun i => brain_out_linear w input (Fin.castLE (by omega) i))
    valence := th (brain_out_linear w input 8)
    arousal := sigmoid e (brain_out_linear w input 9) }

/-- The action-selection scan of brain_infer from main.cpp: start from entry
0 and move only on a strictly greater value, so the first maximum of a
forward scan wins. -/
def scanArgmax (v : Fin 8 → ℚ) : Fin 8 :=
  (((List.finRange 8).drop 1).foldl
    (fun best i => if v i > best.2 then (i, v i) else best) ((0 : Fin 8), v 0)).1

/-- The conversion of the Features struct to the float input array at the
top of brain_infer in main.cpp. -/
def featsVec (f : Features) : Fin 12 → ℚ := fun i =>
  [f.hunger, f.energy, f.affection_need, f.trust, f.stress, f.dt_seconds_norm,
   f.feed_count_5m_norm, f.pet_count_5m_norm, f.ignore_time_norm,
   f.time_of_day_sin, f.time_of_day_cos, f.spam_score_norm].getD i.val 0

/-- brain_infer from main.cpp: run brain_infer_raw (whose action entries are
already softmax probabilities), then add the Online Learner's per-action
biases to those entries, then select the best action by the forward scan.
biases stands for the learner's g_action_biases vector read through
online_learn_get_bias. -/
def brain_infer (e th : ℚ → ℚ) (biases : Fin 8 → ℚ) (w : BrainWeights)
    (features : Features) : BrainOutput :=
  let input := featsVec features
  let raw := brain_infer_raw e th w input
  let withBias : Fin 8 → ℚ := fun i => raw.actions i + biases i
  { action_id := scanArgmax withBias, valence := raw.valence, arousal := raw.arousal }

/-- Modelled from the spec: the spec's (and claim C3's) description of the
learned decision path, in which the eight action logits first receive the
Online Learner's per-action bias added directly, then the numerically stable
softmax is applied over just those eight values, and then the action with
the highest resulting value is selected by the same first-maximum forward
scan.  This differs from brain_infer, which applies the softmax before the
biases are added. -/
def brain_infer_spec (e th : ℚ → ℚ) (biases : Fin 8 → ℚ) (w : BrainWeights)
    (features : Features) : BrainOutput :=
  let input := featsVec features
  let logits : Fin 8 → ℚ := fun i => brain_out_linear w input (Fin.castLE (by omega) i)
  let acts := softmax e (fun i => logits i + biases i)
  { action_id := scanArgmax acts
    valence := th (brain_out_linear w input 8)
    arousal := sigmoid e (brain_out_linear w input 9) }

/-- A strictly monotone, everywhere-positive rational stand-in for expf
(the first Pade approximant of the exponential, glued at 0). -/
def ratExpApprox (x : ℚ) : ℚ := if 0 ≤ x then 1 + x else 1 / (1 - x)

/-- The all-zero feature vector. -/
def zeroFeatures : Features :=
  { hunger := 0, energy := 0, affection_need := 0, trust := 0, stress := 0
    dt_seconds_norm := 0, feed_count_5m_norm := 0, pet_count_5m_norm := 0
    ignore_time_norm := 0, time_of_day_sin := 0, time_of_day_cos := 0
    spam_score_norm := 0 }

/-- A weight set that is zero except for an output bias of 3 on action 1,
so the action logits are (0, 3, 0, 0, 0, 0, 0, 0). -/
def cexWeights : BrainWeights :=
  { w1 := fun _ _ => 0, b1 := fun _ => 0, w2 := fun _ _ => 0
    b2 := fun j => if j = 1 then 3 else 0 }

/-- A learner bias vector of (2, 0, 0, 0, 0, 0, 0, 0). -/
def cexBiases : Fin 8 → ℚ := fun i => if i = 0 then 2 else 0

lemma finRange_eight : List.finRange 8 = [0, 1, 2, 3, 4, 5, 6, 7] := by decide

lemma finRange_twelve :
    List.finRange 12 = [0, 1, 2, 3, 4, 5, 6, 7, 8, 9, 10, 11] := by decide

lemma finRange_sixteen :
    List.finRange 16 = [0, 1, 2, 3, 4, 5, 6, 7, 8, 9, 10, 11, 12, 13, 14, 15] := by decide

/-- Claim C3 (divergence): brain_infer adds the Online Learner's per-action
bias to the softmax probabilities, after the softmax that brain_infer_raw has
already applied - not to the logits before the softmax as the claim (and the
comment above g_action_biases in online_learn.cpp) states.  At the concrete
input with action logits (0, 3, 0, ..., 0) and bias vector (2, 0, ..., 0)
the code selects action 0 (sleep), because the bias 2 is added to a
probability bounded by 1, while the claimed bias-then-softmax order selects
action 1 (idle); the two orders therefore disagree.  ratExpApprox stands for
expf and satisfies its positivity and strict monotonicity. -/
theorem C3_bias_added_after_softmax_not_before :
    (brain_infer ratExpApprox id cexBiases cexWeights zeroFeatures).action_id
      = ACTION_SLEEP ∧
    (brain_infer_spec ratExpApprox id cexBiases cexWeights zeroFeatures).action_id
      = ACTION_IDLE ∧
    (brain_infer ratExpApprox id cexBiases cexWeights zeroFeatures).action_id ≠
      (brain_infer_spec ratExpApprox id cexBiases cexWeights zeroFeatures).action_id := by
  have hin : featsVec zeroFeatures = fun _ => 0 := by
    funext i
    fin_cases i <;> rfl
  have hhid : brain_hidden cexWeights (featsVec zeroFeatures) = fun _ => 0 := by
    funext j
    rw [hin]
    simp [brain_hidden, finRange_twelve, cexWeights, relu]
  have hout : brain_out_linear cexWeights (featsVec zeroFeatures)
      = fun j => if j = 1 then 3 else 0 := by
    funext j
    simp [brain_out_linear, finRange_sixteen, hhid, cexWeights]
  have hcode : (brain_infer ratExpApprox id cexBiases cexWeights zeroFeatures).action_id
      = ACTION_SLEEP := by
    simp only [brain_infer, brain_infer_raw, hout]
    simp only [softmax, scanArgmax, finRange_eight, List.drop, List.foldl_cons, List.foldl_nil]
    norm_num +decide [cexBiases, ratExpApprox, Fin.ext_iff, ACTION_SLEEP]
  have hspec : (brain_infer_spec ratExpApprox id cexBiases cexWeights zeroFeatures).action_id
      = ACTION_IDLE := by
    simp only [brain_infer_spec, hout]
    simp only [softmax, scanArgmax, finRange_eight, List.drop, List.foldl_cons, List.foldl_nil]
    norm_num +decide [cexBiases, ratExpApprox, Fin.ext_iff, ACTION_IDLE]
  refine ⟨hcode, hspec, ?_⟩
  rw [hcode, hspec]
  decide

/-! ## Event Journal (logger.cpp / logger.h) -/

/-- LOG_MAX_EVENTS from logger.h. -/
def LOG_MAX_EVENTS : ℕ := 100

/-- The journal module state from logger.cpp: the ring buffer g_buffer, the
next write position g_head, and the record count g_count.  The journal
mechanics never inspect the stored record, so the entry payload (the LogEntry
struct: timestamp, input event, features, decision and state snapshots) is an
opaque type parameter here. -/
structure LoggerState (α : Type) where
  buf : ℕ → α
  head : ℕ
  count : ℕ

/-- logger_init from logger.cpp. -/
def logger_init {α : Type} [Inhabited α] : LoggerState α :=
  { buf := fun _ => default, head := 0, count := 0 }

/-- logger_log_event from logger.cpp: write the record at g_head, advance
g_head modulo LOG_MAX_EVENTS, and saturate g_count at LOG_MAX_EVENTS. -/
def logger_log_event {α : Type} (st : LoggerState α) (entry : α) : LoggerState α :=
  { buf := Function.update st.buf st.head entry
    head := (st.head + 1) % LOG_MAX_EVENTS
    count := if st.count < LOG_MAX_EVENTS then st.count + 1 else st.count }

/-- logger_get_event from logger.cpp: oldest-first indexed read; when the
ring is full the oldest record sits at g_head, otherwise at 0. -/
def logger_get_event {α : Type} (st : LoggerState α) (index : ℕ) : Option α :=
  if st.count ≤ index then none
  else
    let start := if st.count = LOG_MAX_EVENTS then st.head else 0
    some (st.buf ((start + index) % LOG_MAX_EVENTS))

/-- The journal obtained by appending a list of records to a fresh journal. -/
def foldLog {α : Type} [Inhabited α] (es : List α) : LoggerState α :=
  es.foldl logger_log_event logger_init

lemma foldLog_invariant {α : Type} [Inhabited α] (es : List α) :
    (foldLog es).count = min es.length 100 ∧
    (foldLog es).head = es.length % 100 ∧
    ∀ i : ℕ, i < min es.length 100 →
      (foldLog es).buf
          (((if min es.length 100 = 100 then es.length % 100 else 0) + i) % 100)
        = es.getD (es.length - min es.length 100 + i) default := by
  induction es using List.reverseRecOn with
  | nil => refine ⟨rfl, rfl, ?_⟩; intro i hi; simp at hi
  | append_singleton es e ih =>
      obtain ⟨ihc, ihh, ihb⟩ := ih
      have hstep : foldLog (es ++ [e]) = logger_log_event (foldLog es) e := by
        simp [foldLog]
      have hlen : (es ++ [e]).length = es.length + 1 := by simp
      rcases Nat.lt_or_ge es.length 100 with hn | hn
      · -- not yet full
        have hc : (foldLog (es ++ [e])).count = es.length + 1 := by
          rw [hstep]
          simp only [logger_log_event, ihc, LOG_MAX_EVENTS]
          rw [if_pos (by omega)]
          omega
        have hh : (foldLog (es ++ [e])).head = (es.length + 1) % 100 := by
          rw [hstep]
          simp only [logger_log_event, ihh, LOG_MAX_EVENTS]
          omega
        refine ⟨by rw [hc, hlen]; omega, by rw [hh, hlen], ?_⟩
        intro i hi
        rw [hlen] at hi ⊢
        have hstart : (if min (es.length + 1) 100 = 100 then (es.length + 1) % 100 else 0)
            = 0 := by
          split_ifs with h
          · omega
          · rfl
        rw [hstart, hstep]
        simp only [logger_log_event, ihh, LOG_MAX_EVENTS]
        have hmod : (0 + i) % 100 = i := by omega
        rw [hmod]
        rcases Nat.lt_or_ge i es.length with hilt | hige
        · -- old entry
          rw [Function.update_noteq (show i ≠ es.length % 100 by omega)]
          have hold := ihb i (by omega)
          rw [if_neg (by omega)] at hold
          have hmod0 : (0 + i) % 100 = i := by omega
          rw [hmod0] at hold
          rw [hold]
          have h1 : es.length - min es.length 100 + i = i := by omega
          rw [h1]
          have h2 : es.length + 1 - min (es.length + 1) 100 + i = i := by omega
          rw [h2]
          rw [List.getD_append _ _ _ _ (by omega)]
        · -- the new entry, i = es.length
          have hie : i = es.length := by omega
          have hm : es.length % 100 = es.length := by omega
          rw [hie, hm, Function.update_same]
          have h2 : es.length + 1 - min (es.length + 1) 100 + es.length = es.length := by
            omega
          rw [h2]
          rw [List.getD_append_right _ _ _ _ (by omega)]
          simp
      · -- already full
        have hc100 : (foldLog es).count = 100 := by rw [ihc]; omega
        have hc : (foldLog (es ++ [e])).count = 100 := by
          rw [hstep]
          simp only [logger_log_event, hc100, LOG_MAX_EVENTS]
          rw [if_neg (by omega)]
        have hh : (foldLog (es ++ [e])).head = (es.length + 1) % 100 := by
          rw [hstep]
          simp only [logger_log_event, ihh, LOG_MAX_EVENTS]
          omega
        refine ⟨by rw [hc, hlen]; omega, by rw [hh, hlen], ?_⟩
        intro i hi
        rw [hlen] at hi ⊢
        have hmin : min (es.length + 1) 100 = 100 := by omega
        have hmin0 : min es.length 100 = 100 := by omega
        rw [hmin, if_pos rfl, hstep]
        simp only [logger_log_event, ihh, LOG_MAX_EVENTS]
        rcases Nat.lt_or_ge i 99 with hilt | hige
        · -- shifted old entry
          have hne : ((es.length + 1) % 100 + i) % 100 ≠ es.length % 100 := by omega
          rw [Function.update_noteq hne]
          have heq : ((es.length + 1) % 100 + i) % 100
              = (es.length % 100 + (i + 1)) % 100 := by omega
          rw [heq]
          have hold := ihb (i + 1) (by omega)
          rw [hmin0, if_pos rfl] at hold
          rw [hold]
          have h1 : es.length - 100 + (i + 1) = es.length + 1 - 100 + i := by omega
          rw [h1]
          rw [List.getD_append _ _ _ _ (by omega)]
        · -- the freshly written entry, i = 99
          have hie : i = 99 := by omega
          have heq : ((es.length + 1) % 100 + 99) % 100 = es.length % 100 := by omega
          rw [hie, heq, Function.update_same]
          have h1 : es.length + 1 - 100 + 99 = es.length := by omega
          rw [h1]
          rw [List.getD_append_right _ _ _ _ (by omega)]
          simp

/-- Claim C6: the journal holds at most 100 records; once full, each append
overwrites the oldest; logger_get_event returns records oldest-first by
index; after 150 appended events the journal holds exactly 100 records and
index 0 returns event number 51 (the 51st appended record, index 50 of the
append sequence - the oldest survivor). -/
theorem C6_journal_ring_buffer {α : Type} [Inhabited α] (es : List α) :
    ((foldLog es).count ≤ 100) ∧
    (es.length = 150 →
      (foldLog es).count = 100 ∧
      ∀ i : ℕ, i < 100 →
        logger_get_event (foldLog es) i = some (es.getD (50 + i) default)) := by
  obtain ⟨hc, hh, hb⟩ := foldLog_invariant es
  constructor
  · rw [hc]; omega
  · intro h150
    rw [h150] at hc hh hb
    have hc100 : (foldLog es).count = 100 := by rw [hc]; omega
    refine ⟨hc100, ?_⟩
    intro i hi
    have hbi := hb i (by omega)
    rw [if_pos (by norm_num)] at hbi
    have h50 : (150:ℕ) - min 150 100 + i = 50 + i := by omega
    rw [h50] at hbi
    rw [logger_get_event, if_neg (by omega)]
    simp only [hc100, LOG_MAX_EVENTS, hh, if_true]
    rw [hbi]

/-- Witness for C6 at a concrete input: appending the 150 records 0..149
leaves exactly 100 records and index 0 reads record 50 (the 51st). -/
theorem C6_journal_ring_buffer_witness :
    (foldLog (List.range 150)).count = 100 ∧
    logger_get_event (foldLog (List.range 150)) 0 = some 50 := by
  obtain ⟨hc, hget⟩ := (C6_journal_ring_buffer (List.range 150)).2 (by simp)
  refine ⟨hc, ?_⟩
  rw [hget 0 (by norm_num)]
  norm_num

/-! ## Gesture Recognizer (buttons.cpp) -/

/-- Button timing configuration, from buttons.h. -/
structure ButtonConfig where
  debounce_ms : ℕ
  long_press_ms : ℕ
  double_press_ms : ℕ
  deriving DecidableEq, Repr

/-- buttons_config_init from buttons.cpp: the default thresholds. -/
def buttons_config_init : ButtonConfig :=
  { debounce_ms := 50, long_press_ms := 500, double_press_ms := 300 }

/-- Per-button state, from buttons.h. -/
structure ButtonState where
  current_state : Bool
  last_raw_state : Bool
  last_change_ms : ℕ
  press_start_ms : ℕ
  press_count : ℕ
  pending_event : Bool
  release_time_ms : ℕ
  deriving DecidableEq, Repr

/-- Gesture kinds, from buttons.h. -/
inductive GestureType where
  | GESTURE_SHORT
  | GESTURE_LONG
  | GESTURE_DOUBLE
  deriving DecidableEq, Repr

/-- The per-button state written by buttons_init in buttons.cpp. -/
def buttons_init_state : ButtonState :=
  { current_state := false, last_raw_state := false, last_change_ms := 0
    press_start_ms := 0, press_count := 0, pending_event := false, release_time_ms := 0 }

/-- The body of the per-button loop of buttons_update from buttons.cpp, for
one button at one poll: debounce the raw level, detect press and release
edges, emit a long gesture immediately on a long release, otherwise mark the
release pending, and resolve a pending release into a double or short
gesture.  Each emitted event carries its gesture kind and timestamp; the
button identity is fixed because the two buttons' states are fully
independent in the source. -/
def buttons_update_button (config : ButtonConfig) (state : ButtonState) (raw : Bool)
    (current_ms : ℕ) : ButtonState × List (GestureType × ℕ) :=
  let st1 :=
    if raw != state.last_raw_state then
      { state with last_change_ms := current_ms, last_raw_state := raw }
    else state
  let debounced :=
    if config.debounce_ms ≤ current_ms - st1.last_change_ms then raw else st1.current_state
  let was_pressed := st1.current_state
  let st2 := { st1 with current_state := debounced }
  let st3 :=
    if !was_pressed && debounced then
      { st2 with press_start_ms := current_ms, press_count := st2.press_count + 1 }
    else st2
  let pr : ButtonState × List (GestureType × ℕ) :=
    if was_pressed && !debounced then
      (if config.long_press_ms ≤ current_ms - st3.press_start_ms then
        ({ st3 with press_count := 0, pending_event := false },
         [(GestureType.GESTURE_LONG, current_ms)])
      else
        ({ st3 with release_time_ms := current_ms, pending_event := true }, []))
    else (st3, [])
  let st4 := pr.1
  if st4.pending_event && !st4.current_state then
    (if 2 ≤ st4.press_count then
      ({ st4 with press_count := 0, pending_event := false },
       pr.2 ++ [(GestureType.GESTURE_DOUBLE, current_ms)])
    else if config.double_press_ms ≤ current_ms - st4.release_time_ms then
      ({ st4 with press_count := 0, pending_event := false },
       pr.2 ++ [(GestureType.GESTURE_SHORT, current_ms)])
    else (st4, pr.2))
  else (st4, pr.2)

/-- Poll the button at one-millisecond steps: buttons_run cfg raw st a n
processes the polls at times a, a+1, ..., a+n-1 starting from state st,
collecting the emitted gestures in order.  (The firmware polls every 10 ms;
a 1 ms poll grid is the finest view of the same machine and keeps edge times
exact.) -/
def buttons_run (config : ButtonConfig) (raw : ℕ → Bool) (st : ButtonState) (a : ℕ) :
    ℕ → ButtonState × List (GestureType × ℕ)
  | 0 => (st, [])
  | n+1 =>
    let prev := buttons_run config raw st a n
    let step := buttons_update_button config prev.1 (raw (a + n)) (a + n)
    (step.1, prev.2 ++ step.2)

lemma buttons_run_one (config : ButtonConfig) (raw : ℕ → Bool) (st : ButtonState) (a : ℕ) :
    buttons_run config raw st a 1 = buttons_update_button config st (raw a) a := by
  simp [buttons_run]

lemma buttons_run_add (config : ButtonConfig) (raw : ℕ → Bool) (st : ButtonState)
    (a m : ℕ) : ∀ n : ℕ,
    buttons_run config raw st a (m + n) =
      ((buttons_run config raw (buttons_run config raw st a m).1 (a + m) n).1,
       (buttons_run config raw st a m).2 ++
         (buttons_run config raw (buttons_run config raw st a m).1 (a + m) n).2) := by
  intro n
  induction n with
  | zero => simp [buttons_run]
  | succ n ih =>
      have hmn : m + (n + 1) = (m + n) + 1 := by omega
      rw [hmn]
      simp only [buttons_run, ih]
      have hidx : a + (m + n) = a + m + n := by omega
      rw [hidx]
      simp [List.append_assoc]

lemma buttons_run_extend (config : ButtonConfig) (raw : ℕ → Bool)
    {st st' st'' : ButtonState} {evs evs' : List (GestureType × ℕ)} {a n m : ℕ}
    (h1 : buttons_run config raw st a n = (st', evs))
    (h2 : buttons_run config raw st' (a + n) m = (st'', evs')) :
    buttons_run config raw st a (n + m) = (st'', evs ++ evs') := by
  rw [buttons_run_add config raw st a n m, h1]
  simp only
  rw [h2]

lemma buttons_run_steady (config : ButtonConfig) (raw : ℕ → Bool) (st : ButtonState)
    (a : ℕ) : ∀ n : ℕ,
    (∀ k : ℕ, k < n → buttons_update_button config st (raw (a + k)) (a + k) = (st, [])) →
    buttons_run config raw st a n = (st, []) := by
  intro n
  induction n with
  | zero => intro _; rfl
  | succ n ih =>
      intro h
      simp only [buttons_run]
      rw [ih (fun k hk => h k (by omega))]
      simp only
      rw [h n (by omega)]
      simp

lemma step_noop (config : ButtonConfig) (st : ButtonState) (raw : Bool) (now : ℕ)
    (hraw : st.last_raw_state = raw)
    (hdeb : config.debounce_ms ≤ now - st.last_change_ms → raw = st.current_state)
    (hpend : st.pending_event = true → st.current_state = false →
      st.press_count < 2 ∧ now - st.release_time_ms < config.double_press_ms) :
    buttons_update_button config st raw now = (st, []) := by
  obtain ⟨cs, lr, lc, ps, pc, pe, rt⟩ := st
  simp only at hraw hdeb hpend
  subst hraw
  by_cases hd : config.debounce_ms ≤ now - lc
  · have hc : lr = cs := hdeb hd
    subst hc
    cases lr
    · cases pe
      · simp [buttons_update_button, hd]
      · obtain ⟨hp1, hp2⟩ := hpend rfl rfl
        simp [buttons_update_button, hd, Nat.not_le.mpr hp2]
        omega
    · cases pe <;> simp [buttons_update_button, hd]
  · cases cs
    · cases pe
      · simp [buttons_update_button, hd]
      · obtain ⟨hp1, hp2⟩ := hpend rfl rfl
        simp [buttons_update_button, hd, Nat.not_le.mpr hp2]
        omega
    · cases pe <;> simp [buttons_update_button, hd]

lemma step_raw_change (config : ButtonConfig) (st : ButtonState) (raw : Bool) (now : ℕ)
    (hraw : st.last_raw_state ≠ raw) (hnd : 0 < config.debounce_ms)
    (hpend : st.pending_event = true → st.current_state = false →
      st.press_count < 2 ∧ now - st.release_time_ms < config.double_press_ms) :
    buttons_update_button config st raw now =
      ({ st with last_raw_state := raw, last_change_ms := now }, []) := by
  obtain ⟨cs, lr, lc, ps, pc, pe, rt⟩ := st
  simp only at hraw hpend
  have hne : (raw != lr) = true := by
    cases raw <;> cases lr <;> simp_all
  have h0 : config.debounce_ms ≠ 0 := by omega
  cases cs
  · cases pe
    · simp [buttons_update_button, hne, Nat.sub_self, h0]
    · obtain ⟨hp1, hp2⟩ := hpend rfl rfl
      simp [buttons_update_button, hne, Nat.sub_self, h0, Nat.not_le.mpr hp2]
      omega
  · cases pe <;>
      simp [buttons_update_button, hne, Nat.sub_self, h0]

lemma step_press_edge (config : ButtonConfig) (st : ButtonState) (raw : Bool) (now : ℕ)
    (hlr : st.last_raw_state = true) (hraw : raw = true) (hcs : st.current_state = false)
    (hd : config.debounce_ms ≤ now - st.last_change_ms) :
    buttons_update_button config st raw now =
      ({ st with current_state := true, press_start_ms := now,
                 press_count := st.press_count + 1 }, []) := by
  obtain ⟨cs, lr, lc, ps, pc, pe, rt⟩ := st
  simp only at hlr hcs
  subst hlr hraw hcs
  cases pe <;> simp [buttons_update_button, hd]

lemma step_release_short (config : ButtonConfig) (st : ButtonState) (raw : Bool) (now : ℕ)
    (hlr : st.last_raw_state = false) (hraw : raw = false) (hcs : st.current_state = true)
    (hd : config.debounce_ms ≤ now - st.last_change_ms)
    (hdur : now - st.press_start_ms < config.long_press_ms)
    (hc2 : st.press_count < 2) (hdp : 0 < config.double_press_ms) :
    buttons_update_button config st raw now =
      ({ st with current_state := false, pending_event := true,
                 release_time_ms := now }, []) := by
  obtain ⟨cs, lr, lc, ps, pc, pe, rt⟩ := st
  simp only at hlr hcs
  subst hlr hraw hcs
  have h0 : config.double_press_ms ≠ 0 := by omega
  simp [buttons_update_button, hd, Nat.not_le.mpr hdur, Nat.not_le.mpr hc2,
    Nat.sub_self, h0]

lemma step_release_double (config : ButtonConfig) (st : ButtonState) (raw : Bool) (now : ℕ)
    (hlr : st.last_raw_state = false) (hraw : raw = false) (hcs : st.current_state = true)
    (hd : config.debounce_ms ≤ now - st.last_change_ms)
    (hdur : now - st.press_start_ms < config.long_press_ms)
    (hc2 : 2 ≤ st.press_count) :
    buttons_update_button config st raw now =
      ({ st with current_state := false, press_count := 0, pending_event := false,
                 release_time_ms := now }, [(GestureType.GESTURE_DOUBLE, now)]) := by
  obtain ⟨cs, lr, lc, ps, pc, pe, rt⟩ := st
  simp only at hlr hcs
  subst hlr hraw hcs
  simp [buttons_update_button, hd, Nat.not_le.mpr hdur, hc2]

lemma defcfg_debounce : buttons_config_init.debounce_ms = 50 := rfl

lemma defcfg_long : buttons_config_init.long_press_ms = 500 := rfl

lemma defcfg_double : buttons_config_init.double_press_ms = 300 := rfl

/-- The raw (active-low, already inverted) level of one button line for the
double-press scenario: pressed during [t1, t2) and again during [t3, t4). -/
def rawTwoPresses (t1 t2 t3 t4 : ℕ) : ℕ → Bool := fun t =>
  (decide (t1 ≤ t) && decide (t < t2)) || (decide (t3 ≤ t) && decide (t < t4))

lemma rawTwoPresses_true {t1 t2 t3 t4 t : ℕ}
    (h : (t1 ≤ t ∧ t < t2) ∨ (t3 ≤ t ∧ t < t4)) :
    rawTwoPresses t1 t2 t3 t4 t = true := by
  simp only [rawTwoPresses, Bool.or_eq_true, Bool.and_eq_true, decide_eq_true_eq]
  exact h

lemma rawTwoPresses_false {t1 t2 t3 t4 t : ℕ}
    (h : ¬((t1 ≤ t ∧ t < t2) ∨ (t3 ≤ t ∧ t < t4))) :
    rawTwoPresses t1 t2 t3 t4 t = false := by
  simp only [rawTwoPresses, Bool.or_eq_false_iff, Bool.and_eq_false_iff]
  push_neg at h
  obtain ⟨ha, hb⟩ := h
  constructor
  · by_cases h1 : t1 ≤ t
    · right; simpa using ha h1
    · left; simpa using h1
  · by_cases h3 : t3 ≤ t
    · right; simpa using hb h3
    · left; simpa using h3

lemma buttons_run_extend2 (config : ButtonConfig) (raw : ℕ → Bool)
    {st st' st'' : ButtonState} {evs evs' : List (GestureType × ℕ)} {a n N : ℕ}
    (b m : ℕ)
    (h1 : buttons_run config raw st a n = (st', evs))
    (h2 : buttons_run config raw st' b m = (st'', evs'))
    (hb : b = a + n) (hN : N = n + m) :
    buttons_run config raw st a N = (st'', evs ++ evs') := by
  subst hb hN
  exact buttons_run_extend config raw h1 h2



/-- Claim C5 (amended): with the default configuration and a 1 ms poll grid,
if the first press lasts longer than the debounce window and shorter than the
long-press threshold, the release gap before the second press also exceeds
the debounce window, the second press begins within 300 ms of the (raw)
release, and the second press is likewise released before the long-press
threshold, then the whole sequence emits exactly one double gesture (at the
debounced second release) and no short gesture for either press. -/
theorem C5_double_press_gesture (t1 t2 t3 t4 T : ℕ)
    (h1 : 0 < t1) (h2 : t1 + 50 < t2) (h3 : t2 < t1 + 500)
    (h4 : t2 + 50 < t3) (h5 : t3 ≤ t2 + 300)
    (h6 : t3 + 50 < t4) (h7 : t4 < t3 + 500)
    (h8 : t4 + 50 ≤ T) :
    (buttons_run buttons_config_init (rawTwoPresses t1 t2 t3 t4)
        buttons_init_state 0 (T + 1)).2 =
      [(GestureType.GESTURE_DOUBLE, t4 + 50)] := by
  set cfg := buttons_config_init with hcfg
  set raw := rawTwoPresses t1 t2 t3 t4 with hrawdef
  have r1 : buttons_run cfg raw buttons_init_state 0 t1 = (buttons_init_state, []) :=
    buttons_run_steady _ _ _ _ t1 (fun k hk =>
      step_noop _ _ _ _
        (by simp [hrawdef, rawTwoPresses, buttons_init_state] <;> omega)
        (fun _ => by simp [hrawdef, rawTwoPresses, buttons_init_state] <;> omega)
        (by intro hp _; simp [buttons_init_state] at hp))
  have r2 : buttons_run cfg raw buttons_init_state 0 (t1 + 1) =
      (⟨false, true, t1, 0, 0, false, 0⟩, []) :=
    buttons_run_extend2 _ _ (t1) (1) r1
      (by rw [buttons_run_one, show raw (t1) = true by
            simp [hrawdef, rawTwoPresses] <;> omega]
          exact step_raw_change _ _ _ _ (by simp [buttons_init_state])
            (by simp only [hcfg, buttons_config_init, buttons_init_state]; omega)
            (by intro hp _; simp [buttons_init_state] at hp))
      (by omega) (by omega)
  have r3 : buttons_run cfg raw buttons_init_state 0 (t1 + 50) =
      (⟨false, true, t1, 0, 0, false, 0⟩, []) :=
    buttons_run_extend2 _ _ (t1 + 1) (49) r2
      (buttons_run_steady _ _ _ _ (49) (fun k hk =>
        step_noop _ _ _ _
          (by simp [hrawdef, rawTwoPresses, buttons_init_state] <;> omega)
          (fun h => absurd h (by simp only [hcfg, buttons_config_init, buttons_init_state]; omega))
          (by intro hp _; simp [buttons_init_state] at hp)))
      (by omega) (by omega)
  have r4 : buttons_run cfg raw buttons_init_state 0 (t1 + 51) =
      (⟨true, true, t1, t1 + 50, 1, false, 0⟩, []) :=
    buttons_run_extend2 _ _ (t1 + 50) (1) r3
      (by rw [buttons_run_one, show raw (t1 + 50) = true by
            simp [hrawdef, rawTwoPresses] <;> omega]
          exact step_press_edge _ _ _ _ rfl rfl rfl
            (by simp only [hcfg, buttons_config_init, buttons_init_state]; omega))
      (by omega) (by omega)
  have r5 : buttons_run cfg raw buttons_init_state 0 (t2) =
      (⟨true, true, t1, t1 + 50, 1, false, 0⟩, []) :=
    buttons_run_extend2 _ _ (t1 + 51) (t2 - t1 - 51) r4
      (buttons_run_steady _ _ _ _ (t2 - t1 - 51) (fun k hk =>
        step_noop _ _ _ _
          (by simp [hrawdef, rawTwoPresses, buttons_init_state] <;> omega)
          (fun _ => by simp [hrawdef, rawTwoPresses, buttons_init_state] <;> omega)
          (by intro hp _; simp [buttons_init_state] at hp)))
      (by omega) (by omega)
  have r6 : buttons_run cfg raw buttons_init_state 0 (t2 + 1) =
      (⟨true, false, t2, t1 + 50, 1, false, 0⟩, []) :=
    buttons_run_extend2 _ _ (t2) (1) r5
      (by rw [buttons_run_one, show raw (t2) = false by
            simp [hrawdef, rawTwoPresses] <;> omega]
          exact step_raw_change _ _ _ _ (by simp)
            (by simp only [hcfg, buttons_config_init, buttons_init_state]; omega)
            (by intro hp _; simp [buttons_init_state] at hp))
      (by omega) (by omega)
  have r7 : buttons_run cfg raw buttons_init_state 0 (t2 + 50) =
      (⟨true, false, t2, t1 + 50, 1, false, 0⟩, []) :=
    buttons_run_extend2 _ _ (t2 + 1) (49) r6
      (buttons_run_steady _ _ _ _ (49) (fun k hk =>
        step_noop _ _ _ _
          (by simp [hrawdef, rawTwoPresses, buttons_init_state] <;> omega)
          (fun h => absurd h (by simp only [hcfg, buttons_config_init, buttons_init_state]; omega))
          (by intro hp _; simp [buttons_init_state] at hp)))
      (by omega) (by omega)
  have r8 : buttons_run cfg raw buttons_init_state 0 (t2 + 51) =
      (⟨false, false, t2, t1 + 50, 1, true, t2 + 50⟩, []) :=
    buttons_run_extend2 _ _ (t2 + 50) (1) r7
      (by rw [buttons_run_one, show raw (t2 + 50) = false by
            simp [hrawdef, rawTwoPresses] <;> omega]
          exact step_release_short _ _ _ _ rfl rfl rfl
            (by simp only [hcfg, buttons_config_init, buttons_init_state]; omega)
            (by simp only [hcfg, buttons_config_init, buttons_init_state]; omega)
            (by simp only []; omega)
            (by simp only [hcfg, buttons_config_init, buttons_init_state]; omega))
      (by omega) (by omega)
  have r9 : buttons_run cfg raw buttons_init_state 0 (t3) =
      (⟨false, false, t2, t1 + 50, 1, true, t2 + 50⟩, []) :=
    buttons_run_extend2 _ _ (t2 + 51) (t3 - t2 - 51) r8
      (buttons_run_steady _ _ _ _ (t3 - t2 - 51) (fun k hk =>
        step_noop _ _ _ _
          (by simp [hrawdef, rawTwoPresses, buttons_init_state] <;> omega)
          (fun _ => by simp [hrawdef, rawTwoPresses, buttons_init_state] <;> omega)
          (by intro _ _; simp only [hcfg, buttons_config_init]; exact ⟨by omega, by omega⟩)))
      (by omega) (by omega)
  have r10 : buttons_run cfg raw buttons_init_state 0 (t3 + 1) =
      (⟨false, true, t3, t1 + 50, 1, true, t2 + 50⟩, []) :=
    buttons_run_extend2 _ _ (t3) (1) r9
      (by rw [buttons_run_one, show raw (t3) = true by
            simp [hrawdef, rawTwoPresses] <;> omega]
          exact step_raw_change _ _ _ _ (by simp)
            (by simp only [hcfg, buttons_config_init, buttons_init_state]; omega)
            (by intro _ _; simp only [hcfg, buttons_config_init]; exact ⟨by omega, by omega⟩))
      (by omega) (by omega)
  have r11 : buttons_run cfg raw buttons_init_state 0 (t3 + 50) =
      (⟨false, true, t3, t1 + 50, 1, true, t2 + 50⟩, []) :=
    buttons_run_extend2 _ _ (t3 + 1) (49) r10
      (buttons_run_steady _ _ _ _ (49) (fun k hk =>
        step_noop _ _ _ _
          (by simp [hrawdef, rawTwoPresses, buttons_init_state] <;> omega)
          (fun h => absurd h (by simp only [hcfg, buttons_config_init, buttons_init_state]; omega))
          (by intro _ _; simp only [hcfg, buttons_config_init]; exact ⟨by omega, by omega⟩)))
      (by omega) (by omega)
  have r12 : buttons_run cfg raw buttons_init_state 0 (t3 + 51) =
      (⟨true, true, t3, t3 + 50, 2, true, t2 + 50⟩, []) :=
    buttons_run_extend2 _ _ (t3 + 50) (1) r11
      (by rw [buttons_run_one, show raw (t3 + 50) = true by
            simp [hrawdef, rawTwoPresses] <;> omega]
          exact step_press_edge _ _ _ _ rfl rfl rfl
            (by simp only [hcfg, buttons_config_init, buttons_init_state]; omega))
      (by omega) (by omega)
  have r13 : buttons_run cfg raw buttons_init_state 0 (t4) =
      (⟨true, true, t3, t3 + 50, 2, true, t2 + 50⟩, []) :=
    buttons_run_extend2 _ _ (t3 + 51) (t4 - t3 - 51) r12
      (buttons_run_steady _ _ _ _ (t4 - t3 - 51) (fun k hk =>
        step_noop _ _ _ _
          (by simp [hrawdef, rawTwoPresses, buttons_init_state] <;> omega)
          (fun _ => by simp [hrawdef, rawTwoPresses, buttons_init_state] <;> omega)
          (by intro _ hc; simp at hc)))
      (by omega) (by omega)
  have r14 : buttons_run cfg raw buttons_init_state 0 (t4 + 1) =
      (⟨true, false, t4, t3 + 50, 2, true, t2 + 50⟩, []) :=
    buttons_run_extend2 _ _ (t4) (1) r13
      (by rw [buttons_run_one, show raw (t4) = false by
            simp [hrawdef, rawTwoPresses] <;> omega]
          exact step_raw_change _ _ _ _ (by simp)
            (by simp only [hcfg, buttons_config_init, buttons_init_state]; omega)
            (by intro _ hc; simp at hc))
      (by omega) (by omega)
  have r15 : buttons_run cfg raw buttons_init_state 0 (t4 + 50) =
      (⟨true, false, t4, t3 + 50, 2, true, t2 + 50⟩, []) :=
    buttons_run_extend2 _ _ (t4 + 1) (49) r14
      (buttons_run_steady _ _ _ _ (49) (fun k hk =>
        step_noop _ _ _ _
          (by simp [hrawdef, rawTwoPresses, buttons_init_state] <;> omega)
          (fun h => absurd h (by simp only [hcfg, buttons_config_init, buttons_init_state]; omega))
          (by intro _ hc; simp at hc)))
      (by omega) (by omega)
  have r16 : buttons_run cfg raw buttons_init_state 0 (t4 + 51) =
      (⟨false, false, t4, t3 + 50, 0, false, t4 + 50⟩, [(GestureType.GESTURE_DOUBLE, t4 + 50)]) :=
    buttons_run_extend2 _ _ (t4 + 50) (1) r15
      (by rw [buttons_run_one, show raw (t4 + 50) = false by
            simp [hrawdef, rawTwoPresses] <;> omega]
          exact step_release_double _ _ _ _ rfl rfl rfl
            (by simp only [hcfg, buttons_config_init, buttons_init_state]; omega)
            (by simp only [hcfg, buttons_config_init, buttons_init_state]; omega)
            (by simp only []; omega))
      (by omega) (by omega)
  have r17 : buttons_run cfg raw buttons_init_state 0 (T + 1) =
      (⟨false, false, t4, t3 + 50, 0, false, t4 + 50⟩, [(GestureType.GESTURE_DOUBLE, t4 + 50)]) :=
    buttons_run_extend2 _ _ (t4 + 51) (T - t4 - 50) r16
      (buttons_run_steady _ _ _ _ (T - t4 - 50) (fun k hk =>
        step_noop _ _ _ _
          (by simp [hrawdef, rawTwoPresses, buttons_init_state] <;> omega)
          (fun _ => by simp [hrawdef, rawTwoPresses, buttons_init_state] <;> omega)
          (by intro hp _; simp [buttons_init_state] at hp)))
      (by omega) (by omega)
  rw [r17]

set_option maxRecDepth 10000 in
/-- Counterexample to claim C5 as stated: the button is pressed at 1 ms and
released at 52 ms (51 ms, below the long-press threshold), and a second press
of the same button begins at 103 ms, within 300 ms of that release - but the
second press is held until 603 ms (500 ms, reaching the long-press
threshold).  The whole sequence emits exactly one long gesture and no double
gesture at all: a long second press cancels the double-press tracking, so the
claim's conclusion ("exactly one double gesture") fails. -/
theorem C5_counterexample :
    (buttons_run buttons_config_init (rawTwoPresses 1 52 103 603)
        buttons_init_state 0 654).2 = [(GestureType.GESTURE_LONG, 653)] ∧
    ((buttons_run buttons_config_init (rawTwoPresses 1 52 103 603)
        buttons_init_state 0 654).2.countP
      (fun e => e.1 == GestureType.GESTURE_DOUBLE)) ≠ 1 := by
  constructor
  · decide
  · decide

/-- Witness for C5 at concrete times: press 1-52 ms, press 103-154 ms,
polled through 204 ms, yields exactly one double gesture at 204 ms. -/
theorem C5_double_press_gesture_witness :
    (buttons_run buttons_config_init (rawTwoPresses 1 52 103 154)
        buttons_init_state 0 205).2 =
      [(GestureType.GESTURE_DOUBLE, 204)] :=
  C5_double_press_gesture 1 52 103 154 204 (by omega) (by omega) (by omega)
    (by omega) (by omega) (by omega) (by omega) (by omega)
